import Mathlib

/-!
Verification development for the companion backend's asynchronous task
pipeline: the task metadata store (`project/tasks/service.py`), the Celery
signal handlers and worker tasks (`project/ollama/tasks.py`), the streaming
adapter (`project/ollama/streaming.py`), and the delivery gateways
(`project/ollama/views.py`, `project/ollama/websocket.py`,
`project/ws/views.py`, `project/blog/views.py`).

Machine time (`datetime.utcnow()`) is modelled as an explicit `Nat`
parameter; result payloads (Python dicts) as association lists of strings.
-/

set_option linter.unusedVariables false

deriving instance DecidableEq for Except

namespace Companion

/-- Row of the `task_metadata` table (`project/tasks/models.py`,
class `TaskMetadata`).  `task_id` carries a unique index. -/
structure TaskMetadata where
  task_id : String
  user_id : Nat
  task_type : String
  task_name : String
  resource_type : Option String
  resource_id : Option Nat
  status : String
  result : Option (List (String × String))
  error : Option String
  created_at : Nat
  started_at : Option Nat
  completed_at : Option Nat
deriving Repr, DecidableEq

/-- The task-metadata table, in insertion order. -/
abbrev TaskDB := List TaskMetadata

/-- Python truthiness of an `Optional[int]` argument: `None` and `0` are
falsy (`if user_id:` in `TaskService.get_task`). -/
def pyTruthyNat : Option Nat → Bool
  | none => false
  | some 0 => false
  | some _ => true

/-- `TaskService.get_task`: query by `task_id`, optionally filtered by
`user_id` (only when the Python value is truthy), `.first()`. -/
def get_task (db : TaskDB) (task_id : String) (user_id : Option Nat) :
    Option TaskMetadata :=
  let q := db.filter (fun t => t.task_id == task_id)
  if pyTruthyNat user_id then
    (q.filter (fun t => some t.user_id == user_id)).head?
  else
    q.head?

/-- `TaskService.create_task`: insert a fresh row with status `"pending"`;
`created_at` defaults to `utcnow` (column default in the model). -/
def create_task (db : TaskDB) (task_id : String) (user_id : Nat)
    (task_type task_name : String) (resource_type : Option String)
    (resource_id : Option Nat) (now : Nat) : TaskDB :=
  db ++ [{ task_id := task_id
           user_id := user_id
           task_type := task_type
           task_name := task_name
           resource_type := resource_type
           resource_id := resource_id
           status := "pending"
           result := none
           error := none
           created_at := now
           started_at := none
           completed_at := none }]

/-- The in-place mutation performed by `TaskService.update_task_status` on
the fetched row.  The Python body assigns sequentially: `status`
unconditionally; `started_at` only on a `"running"` write while still
null; `completed_at` only on a terminal write while still null;
`result`/`error` only when the argument is not `None`.  No assignment
reads a field written by an earlier one, so the sequence collapses to one
record update. -/
def applyStatusUpdate (status : String)
    (result : Option (List (String × String))) (error : Option String)
    (now : Nat) (t : TaskMetadata) : TaskMetadata :=
  { t with
    status := status
    started_at :=
      if status == "running" && t.started_at == none then some now
      else t.started_at
    completed_at :=
      if (status == "success" || status == "failed")
         && t.completed_at == none then some now
      else t.completed_at
    result := match result with
              | some r => some r
              | none => t.result
    error := match error with
             | some e => some e
             | none => t.error }

/-- `TaskService.update_task_status`: fetch the row by `task_id` (no user
filter); if absent return the table unchanged, else mutate that row
(unique `task_id` index: at most one row matches) and commit. -/
def update_task_status (db : TaskDB) (task_id status : String)
    (result : Option (List (String × String))) (error : Option String)
    (now : Nat) : TaskDB :=
  match get_task db task_id none with
  | none => db
  | some _ =>
      db.map (fun t =>
        if t.task_id == task_id then
          applyStatusUpdate status result error now t
        else t)

/-- A Celery task's Python return value, as seen by the postrun signal:
either a dict or some other value (stringified by the handler). -/
inductive RetVal where
  | dict (d : List (String × String))
  | other (s : String)
deriving Repr, DecidableEq

/-- `retval if isinstance(retval, dict) else {"result": str(retval)}`
(in `task_postrun_handler`, `project/ollama/tasks.py`). -/
def wrapRetval : RetVal → List (String × String)
  | .dict d => d
  | .other s => [("result", s)]

/-- `task_prerun_handler` (`project/ollama/tasks.py`): mark the task
running when it starts. -/
def task_prerun_handler (db : TaskDB) (task_id : String) (now : Nat) :
    TaskDB :=
  update_task_status db task_id "running" none none now

/-- `task_postrun_handler` (`project/ollama/tasks.py`): after every task
run it writes status `"success"` with the wrapped return value, then
broadcasts (the broadcast step touches no task row and is modelled
elsewhere). There is no branch on how the run ended. -/
def task_postrun_handler (db : TaskDB) (task_id : String) (retval : RetVal)
    (now : Nat) : TaskDB :=
  update_task_status db task_id "success" (some (wrapRetval retval)) none now

/-- `task_failure_handler` (`project/ollama/tasks.py`): mark the task
failed with `error=str(exception)`.  It publishes nothing. -/
def task_failure_handler (db : TaskDB) (task_id : String)
    (exception : String) (now : Nat) : TaskDB :=
  update_task_status db task_id "failed" none (some exception) now

/-- One message published on the broadcast bus by the streaming worker
(`json.dumps({"type": ..., "data": ..., "done": ...})` on channel
`"stream:" ++ task_id`). -/
structure StreamEvent where
  channel : String
  type : String
  data : String
  done : Bool
deriving Repr, DecidableEq

/-- A `chunk` event as published by `task_stream_summarize_note`. -/
def chunkEvent (task_id chunk : String) : StreamEvent :=
  { channel := "stream:" ++ task_id, type := "chunk", data := chunk,
    done := false }

/-- The `complete` event as published by `task_stream_summarize_note`. -/
def completeEvent (task_id full_text : String) : StreamEvent :=
  { channel := "stream:" ++ task_id, type := "complete", data := full_text,
    done := true }

/-- `OllamaStreamingService.stream_generate`
(`project/ollama/streaming.py`): the upstream chunked HTTP call is
modelled by the fragments it yields before either finishing or raising
with message `failure`.  The entire loop sits in a `try`: any exception is
caught and surfaced as one final in-band fragment `"[Error: {msg}]"`; the
generator itself never raises. -/
def stream_generate (fragments : List String) (failure : Option String) :
    List String :=
  match failure with
  | none => fragments
  | some msg => fragments ++ ["[Error: " ++ msg ++ "]"]

/-- `OllamaStreamingService.stream_content`: builds a prompt and forwards
every fragment of `stream_generate` unchanged. -/
def stream_content (fragments : List String) (failure : Option String) :
    List String :=
  stream_generate fragments failure

/-- The `async for` loop of `stream_and_publish` inside
`task_stream_summarize_note`: for each adapter fragment, append it to the
accumulator and publish a `chunk` event.  Returns the published events and
the final accumulator. -/
def publishChunks (task_id : String) (full_text : String) :
    List String → List StreamEvent × String
  | [] => ([], full_text)
  | c :: rest =>
      let r := publishChunks task_id (full_text ++ c) rest
      (chunkEvent task_id c :: r.1, r.2)

/-- Result of one successful run of `task_stream_summarize_note`
(`project/ollama/tasks.py`): the events published on
`"stream:" ++ task_id`, the text saved to `note.ai_summary`, and the
`has_ai_summary` flag. -/
structure SummarizeRun where
  events : List StreamEvent
  ai_summary : String
  has_ai_summary : Bool
deriving Repr, DecidableEq

/-- The success path of `task_stream_summarize_note`: the note was found
and the event loop ran to completion.  `chunks` is what
`streaming_service.stream_content` yielded.  The worker publishes one
`chunk` event per fragment, then one `complete` event carrying the
accumulated `full_text`, then persists `full_text` as the note's
summary. -/
def task_stream_summarize_note (task_id : String) (chunks : List String) :
    SummarizeRun :=
  let r := publishChunks task_id "" chunks
  { events := r.1 ++ [completeEvent task_id r.2]
    ai_summary := r.2
    has_ai_summary := true }

/-- The row query shared by the task views (`project/tasks/views.py`):
`db.query(TaskMetadata).filter(task_id == ..., user_id == ...).first()`. -/
def task_row_query (db : TaskDB) (task_id : String) (user_id : Nat) :
    Option TaskMetadata :=
  (db.filter (fun t => t.task_id == task_id && t.user_id == user_id)).head?

/-- The dict returned by `get_task_info` (`project/celery_utils.py`):
Celery's view of a task's state. -/
structure CeleryInfo where
  state : String
  result : Option (List (String × String))
  error : Option String
deriving Repr, DecidableEq

/-- Response of `GET /tasks/{task_id}`. -/
inductive GetTaskResponse where
  | ok (t : TaskMetadata)
  | notFound
deriving Repr, DecidableEq

/-- `get_task_status` (`project/tasks/views.py`): fetch the caller's row;
404 when absent; otherwise reconcile with Celery — whenever Celery
reports a non-empty state differing from the stored status, call
`update_task_status` with that state and refresh.  The inner `none`
branch is dead: the update never removes the row. -/
def get_task_status_view (db : TaskDB) (task_id : String) (user_id : Nat)
    (celery : CeleryInfo) (now : Nat) : GetTaskResponse × TaskDB :=
  match task_row_query db task_id user_id with
  | none => (.notFound, db)
  | some task =>
      let celery_state := celery.state.toLower
      if celery_state != "" && celery_state != task.status then
        let db2 := update_task_status db task_id celery_state celery.result
                     celery.error now
        match task_row_query db2 task_id user_id with
        | some t2 => (.ok t2, db2)
        | none => (.notFound, db2)
      else
        (.ok task, db)

/-- Response of `DELETE /tasks/{task_id}`. -/
inductive CancelResponse where
  | cancelled
  | notFound
deriving Repr, DecidableEq

/-- Outcome of the cancel endpoint: HTTP response, table afterwards, and
whether a Celery revoke was attempted. -/
structure CancelOutcome where
  response : CancelResponse
  db : TaskDB
  revoke_attempted : Bool
deriving Repr, DecidableEq

/-- `cancel_task` (`project/tasks/views.py`): fetch the caller's row (404
when absent); revoke the Celery task inside `try/except Exception: pass`,
so a raising revoke (`revoke_raises`) changes nothing; then delete the
fetched row and commit. -/
def cancel_task (db : TaskDB) (task_id : String) (user_id : Nat)
    (revoke_raises : Bool) : CancelOutcome :=
  match task_row_query db task_id user_id with
  | none => { response := .notFound, db := db, revoke_attempted := false }
  | some _ =>
      { response := .cancelled
        db := db.eraseP (fun t => t.task_id == task_id && t.user_id == user_id)
        revoke_attempted := true }

/-- A note row, as far as the dispatch endpoints inspect it. -/
structure Note where
  id : Nat
  user_id : Nat
  title : String
  content : String
deriving Repr, DecidableEq

/-- A message placed on the Celery queue by `.delay(...)`. -/
structure QueueMsg where
  task : String
  note_id : Nat
  user_id : Nat
deriving Repr, DecidableEq

/-- Response of `POST /ollama/enhance`. -/
inductive DispatchResponse where
  | accepted (task_id : String) (note_id : Nat)
  | notFound (detail : String)
deriving Repr, DecidableEq

/-- Outcome of the dispatch endpoint: response, task table afterwards,
queue messages enqueued by this request. -/
structure DispatchOutcome where
  response : DispatchResponse
  db : TaskDB
  queued : List QueueMsg
deriving Repr, DecidableEq

/-- `enhance_note` (`project/ollama/views.py`): look up the note by id and
owner; absent or foreign-owned → 404 with nothing created or enqueued;
otherwise enqueue `task_enhance_note` (the fresh Celery id is
`fresh_task_id`), create the metadata row, and return 200. -/
def enhance_note (notes : List Note) (db : TaskDB) (note_id user_id : Nat)
    (fresh_task_id : String) (now : Nat) : DispatchOutcome :=
  match (notes.filter
          (fun n => n.id == note_id && n.user_id == user_id)).head? with
  | none =>
      { response := .notFound "Note not found", db := db, queued := [] }
  | some note =>
      { response := .accepted fresh_task_id note_id
        db := create_task db fresh_task_id user_id "enhance"
                ("Enhance: " ++ note.title.take 50) (some "note")
                (some note.id) now
        queued := [{ task := "task_enhance_note", note_id := note_id,
                     user_id := user_id }] }

/-- A server-sent event framed by the `/ollama` streaming endpoints. -/
inductive SSEEvent where
  | started (task_id : String)
  | chunk (content : String)
  | done (full_text : String)
  | errorEvt (error : String)
deriving Repr, DecidableEq

/-- What one run of `enhance_note_streaming.generate`
(`project/ollama/views.py`) sends and saves. -/
structure EnhanceStreamRun where
  events : List SSEEvent
  saved : Option (Nat × String)
deriving Repr, DecidableEq

/-- The `async for` accumulation loop shared by the SSE endpoints: yield a
`chunk` event per fragment while appending to `full_text`. -/
def sseChunkLoop (full_text : String) :
    List String → List SSEEvent × String
  | [] => ([], full_text)
  | c :: rest =>
      let r := sseChunkLoop (full_text ++ c) rest
      (SSEEvent.chunk c :: r.1, r.2)

/-- `enhance_note_streaming.generate`: sends the started frame, then one
chunk frame per adapter fragment, then enqueues
`task_save_enhanced_note(note.id, full_text)` and sends the done frame.
Because `stream_content` never raises (every adapter failure is an
in-band fragment), the `except` branch that would yield an `errorEvt`
frame is unreachable from adapter errors; failures of the enqueue itself
are outside this model. -/
def enhance_note_streaming_generate (task_id : String) (note_id : Nat)
    (fragments : List String) (failure : Option String) : EnhanceStreamRun :=
  let out := stream_content fragments failure
  let r := sseChunkLoop "" out
  { events := SSEEvent.started task_id :: r.1 ++ [SSEEvent.done r.2]
    saved := some (note_id, r.2) }

/-- A frame of `POST /blog/generate/stream` (`project/blog/views.py`). -/
inductive BlogSSE where
  | start (blog_id : Nat) (title : String)
  | chunk (content : String)
  | complete (blog_id : Nat)
  | errorEvt (error : String)
deriving Repr, DecidableEq

/-- `OllamaStreamingService.stream_blog_content`: builds a prompt and
forwards every fragment of `stream_generate` unchanged. -/
def stream_blog_content (fragments : List String)
    (failure : Option String) : List String :=
  stream_generate fragments failure

/-- `stream_blog_generation.stream` (`project/blog/views.py`): start
frame, one chunk frame per adapter fragment, then the complete frame.  As
with the other SSE gateway, the `except` branch yielding an `errorEvt`
frame is unreachable from adapter errors since the adapter never
raises. -/
def stream_blog_generation_stream (blog_id : Nat) (title : String)
    (fragments : List String) (failure : Option String) : List BlogSSE :=
  let out := stream_blog_content fragments failure
  BlogSSE.start blog_id title :: out.map BlogSSE.chunk
    ++ [BlogSSE.complete blog_id]

/-- One JSON message sent over a websocket by the gateways: either the
`get_task_info` snapshot dict or a relayed broadcast event. -/
inductive WsMessage where
  | snapshot (info : CeleryInfo)
  | event (e : StreamEvent)
deriving Repr, DecidableEq

/-- The relay loop of `ws_ollama_stream`
(`project/ollama/websocket.py`): send each subscribed event; after
sending one with `done` set, break and close. -/
def ws_relay : List StreamEvent → List StreamEvent
  | [] => []
  | e :: rest => if e.done then [e] else e :: ws_relay rest

/-- Messages sent by `ws_ollama_stream` (`/ollama/ws/stream/{task_id}`,
`project/ollama/websocket.py`) to an authenticated client, given the
current Celery snapshot `info` (available, but the handler never reads or
sends it) and the events published on the channel while connected. -/
def ws_ollama_stream_messages (info : CeleryInfo)
    (events : List StreamEvent) : List WsMessage :=
  (ws_relay events).map WsMessage.event

/-- Messages sent by `ws_task_status` (`/ws/task_status/{task_id}`,
`project/ws/views.py`): after subscribing, first the `get_task_info`
snapshot, then every subsequent event (this handler never breaks on a
terminal event). -/
def ws_task_status_messages (info : CeleryInfo)
    (events : List StreamEvent) : List WsMessage :=
  WsMessage.snapshot info :: events.map WsMessage.event

/-- Outcome of Celery's driver around a task body with `self.retry`:
the countdowns of the scheduled retries, the number of attempts run, and
the final result (`error` = the exception the last attempt raised). -/
structure RetryOutcome where
  countdowns : List Nat
  attempts : Nat
  final : Except String (List (String × String))
deriving Repr, DecidableEq

/-- Celery's retry driver, modelled structurally on the retries still
allowed: attempt `k`; on success stop; on exception, if retries remain,
schedule a retry after `countdown` seconds (the handler passes
`countdown=60` on every call) and run again, else re-raise the last
exception.  `task_enhance_note` is declared `max_retries=3`, so the
driver starts with `retries_left = 3`. -/
def celery_retry_loop (countdown : Nat)
    (attempt : Nat → Except String (List (String × String))) :
    Nat → Nat → RetryOutcome
  | retries_left, k =>
      match attempt k with
      | .ok v => { countdowns := [], attempts := 1, final := .ok v }
      | .error e =>
          match retries_left with
          | 0 => { countdowns := [], attempts := 1, final := .error e }
          | n + 1 =>
              let o := celery_retry_loop countdown attempt n (k + 1)
              { countdowns := countdown :: o.countdowns
                attempts := o.attempts + 1
                final := o.final }

/-- One complete run of `task_enhance_note` through the retry driver and
the signal handlers (`project/ollama/tasks.py`). -/
structure EnhanceRun where
  outcome : RetryOutcome
  db : TaskDB
  published : List StreamEvent
deriving Repr, DecidableEq

/-- `task_enhance_note` with `max_retries=3` and
`self.retry(exc=e, countdown=60)`: run attempts until success or retries
are exhausted.  On success only the postrun hook fires, recording the
return value.  On final failure Celery dispatches `task_failure` and
then `task_postrun` — the postrun signal fires after every run, failed
ones included — so `task_failure_handler` records the last exception at
`nowFail` and `task_postrun_handler` then runs at `nowPost` with the
(stringified) exception as its `retval`.  Neither the task body nor
either handler publishes any StreamEvent on any path (the postrun hook
broadcasts a Celery snapshot message, not a StreamEvent), so `published`
is empty. -/
def task_enhance_note_run (db : TaskDB) (task_id : String)
    (attempt : Nat → Except String (List (String × String)))
    (nowFail nowPost : Nat) : EnhanceRun :=
  let o := celery_retry_loop 60 attempt 3 0
  match o.final with
  | .ok v =>
      { outcome := o, db := task_postrun_handler db task_id (.dict v) nowPost
        published := [] }
  | .error e =>
      { outcome := o
        db := task_postrun_handler
                (task_failure_handler db task_id e nowFail)
                task_id (.other e) nowPost
        published := [] }

/-! ## Basic lemmas about the metadata store -/

theorem applyStatusUpdate_task_id (s : String)
    (r : Option (List (String × String))) (e : Option String) (now : Nat)
    (t : TaskMetadata) :
    (applyStatusUpdate s r e now t).task_id = t.task_id := rfl

theorem applyStatusUpdate_status (s : String)
    (r : Option (List (String × String))) (e : Option String) (now : Nat)
    (t : TaskMetadata) : (applyStatusUpdate s r e now t).status = s := rfl

theorem applyStatusUpdate_created_at (s : String)
    (r : Option (List (String × String))) (e : Option String) (now : Nat)
    (t : TaskMetadata) :
    (applyStatusUpdate s r e now t).created_at = t.created_at := rfl

theorem applyStatusUpdate_started_at (s : String)
    (r : Option (List (String × String))) (e : Option String) (now : Nat)
    (t : TaskMetadata) :
    (applyStatusUpdate s r e now t).started_at
      = if s == "running" && t.started_at == none then some now
        else t.started_at := rfl

theorem applyStatusUpdate_completed_at (s : String)
    (r : Option (List (String × String))) (e : Option String) (now : Nat)
    (t : TaskMetadata) :
    (applyStatusUpdate s r e now t).completed_at
      = if (s == "success" || s == "failed") && t.completed_at == none then
          some now
        else t.completed_at := rfl

theorem applyStatusUpdate_result (s : String)
    (v : List (String × String)) (e : Option String) (now : Nat)
    (t : TaskMetadata) :
    (applyStatusUpdate s (some v) e now t).result = some v := rfl

theorem applyStatusUpdate_error (s : String)
    (r : Option (List (String × String))) (m : String) (now : Nat)
    (t : TaskMetadata) :
    (applyStatusUpdate s r (some m) now t).error = some m := rfl

theorem head_filter_eq_find {α : Type} (p : α → Bool) (l : List α) :
    (l.filter p).head? = l.find? p := by
  induction l with
  | nil => rfl
  | cons a l ih =>
      by_cases h : p a <;> simp [List.filter_cons, List.find?, h, ih]

/-- With no user filter, `get_task` is `find?` on `task_id`. -/
theorem get_task_none_eq_find (l : TaskDB) (tid : String) :
    get_task l tid none = l.find? (fun t => t.task_id == tid) :=
  head_filter_eq_find _ l

theorem find_map_keyed (tid : String) (g : TaskMetadata → TaskMetadata)
    (hg : ∀ x, (g x).task_id = x.task_id) (l : TaskDB) :
    ∀ t : TaskMetadata,
      l.find? (fun x => x.task_id == tid) = some t →
      (l.map (fun x => if x.task_id == tid then g x else x)).find?
          (fun x => x.task_id == tid) = some (g t) := by
  induction l with
  | nil => intro t h; simp at h
  | cons a l ih =>
      intro t h
      by_cases ha : (a.task_id == tid) = true
      · have h1 : ((if (a.task_id == tid) = true then g a else a).task_id
            == tid) = true := by
          rw [if_pos ha, hg a]; exact ha
        simp only [List.find?, ha] at h
        injection h with h
        subst h
        simp only [List.map_cons, List.find?, h1, if_pos ha]
        rw [hg a]
        simp only [ha]
      · have ha2 : (a.task_id == tid) = false := by
          simpa using ha
        have h1 : ((if (a.task_id == tid) = true then g a else a).task_id
            == tid) = false := by
          rw [if_neg ha, ha2]
        simp only [List.find?, ha2] at h
        simp only [List.map_cons, List.find?, h1]
        exact ih t h

/-- `update_task_status` mutates exactly the fetched row. -/
theorem get_task_update (db : TaskDB) (tid s : String)
    (r : Option (List (String × String))) (e : Option String) (now : Nat)
    (t : TaskMetadata) (h : get_task db tid none = some t) :
    get_task (update_task_status db tid s r e now) tid none
      = some (applyStatusUpdate s r e now t) := by
  unfold update_task_status
  rw [h, get_task_none_eq_find]
  rw [get_task_none_eq_find] at h
  exact find_map_keyed tid _ (fun x => applyStatusUpdate_task_id s r e now x)
    db t h

/-! ## Lemmas about the streaming loops and relays -/

theorem string_join_eq_foldl (l : List String) :
    String.join l = l.foldl (fun a c => a ++ c) "" := rfl

theorem string_join_append_single (l : List String) (m : String) :
    String.join (l ++ [m]) = String.join l ++ m := by
  simp [string_join_eq_foldl, List.foldl_append]

theorem publishChunks_spec (tid : String) (l : List String) :
    ∀ acc : String,
      publishChunks tid acc l
        = (l.map (chunkEvent tid), l.foldl (fun a c => a ++ c) acc) := by
  induction l with
  | nil => intro acc; rfl
  | cons c rest ih =>
      intro acc
      simp [publishChunks, ih (acc ++ c)]

theorem sseChunkLoop_spec (l : List String) :
    ∀ acc : String,
      sseChunkLoop acc l
        = (l.map SSEEvent.chunk, l.foldl (fun a c => a ++ c) acc) := by
  induction l with
  | nil => intro acc; rfl
  | cons c rest ih =>
      intro acc
      simp [sseChunkLoop, ih (acc ++ c)]

/-- Everything the relay loop forwards was published on the channel. -/
theorem ws_relay_subset (l : List StreamEvent) :
    ∀ e ∈ ws_relay l, e ∈ l := by
  induction l with
  | nil => intro e h; exact absurd h (List.not_mem_nil e)
  | cons a rest ih =>
      intro e h
      by_cases ha : a.done
      · simp only [ws_relay, if_pos ha, List.mem_singleton] at h
        subst h
        exact List.mem_cons_self _ _
      · simp only [ws_relay, if_neg ha, List.mem_cons] at h
        rcases h with h | h
        · subst h
          exact List.mem_cons_self _ _
        · exact List.mem_cons_of_mem a (ih e h)

/-- The relay forwards a chunk sequence followed by its `complete` event
in full: chunks are not `done`, and the final event is. -/
theorem ws_relay_chunks_complete (tid ft : String) (l : List String) :
    ws_relay (l.map (chunkEvent tid) ++ [completeEvent tid ft])
      = l.map (chunkEvent tid) ++ [completeEvent tid ft] := by
  induction l with
  | nil => rfl
  | cons c rest ih =>
      simp only [List.map_cons, List.cons_append, ws_relay]
      rw [if_neg (by simp [chunkEvent])]
      simpa using ih

/-! ## Concrete sample data shared by the witness evaluations -/

/-- The row created by `create_task` for task `"t1"` of user `7`. -/
def sampleRow : TaskMetadata :=
  { task_id := "t1", user_id := 7, task_type := "enhance",
    task_name := "Enhance: demo", resource_type := some "note",
    resource_id := some 5, status := "pending", result := none,
    error := none, created_at := 0, started_at := none,
    completed_at := none }

/-- A one-row table: the state right after dispatching task `"t1"`. -/
def sampleDB : TaskDB :=
  create_task [] "t1" 7 "enhance" "Enhance: demo" (some "note") (some 5) 0

/-- A Celery snapshot of an already-finished task. -/
def sampleInfo : CeleryInfo :=
  { state := "SUCCESS", result := some [("note_id", "5")], error := none }

/-! ## Claims -/

/-- C1: counterexample.  The claim says a terminal status, once written
via `update_task_status`, is never changed by a later call.  Concretely:
after the failure hook writes `"failed"` for task `"t1"`, the postrun
hook's later write of `"success"` replaces it — the first writer of a
terminal status does not win. -/
theorem c1_terminal_status_overwritten :
    ((get_task (task_failure_handler sampleDB "t1" "boom" 1) "t1" none).map
        TaskMetadata.status = some "failed")
    ∧ ((get_task
          (task_postrun_handler (task_failure_handler sampleDB "t1" "boom" 1)
            "t1" (RetVal.other "None") 2) "t1" none).map TaskMetadata.status
        = some "success") := by
  exact ⟨rfl, rfl⟩

/-- C1 (amended): `update_task_status` is last-writer-wins on `status`:
every call rewrites `status` to its argument, even over a terminal
status.  Only the timestamps are first-writer-wins: `completed_at` keeps
the value set by the first terminal write. -/
theorem c1_status_last_writer_wins (db : TaskDB) (tid s : String)
    (r : Option (List (String × String))) (e : Option String) (now : Nat)
    (t : TaskMetadata) (h : get_task db tid none = some t) :
    get_task (update_task_status db tid s r e now) tid none
      = some (applyStatusUpdate s r e now t)
    ∧ (applyStatusUpdate s r e now t).status = s
    ∧ (∀ x, t.completed_at = some x →
        (applyStatusUpdate s r e now t).completed_at = some x) := by
  refine ⟨get_task_update db tid s r e now t h, rfl, ?_⟩
  intro x hx
  rw [applyStatusUpdate_completed_at, hx]
  simp

/-- C1 witness: a second terminal write (`"failed"` over `"success"`)
for task `"t1"` lands, replacing the status. -/
theorem c1_status_last_writer_wins_witness :
    get_task (update_task_status
        (update_task_status sampleDB "t1" "success" none none 1)
        "t1" "failed" none none 2) "t1" none
      = some (applyStatusUpdate "failed" none none 2
          (applyStatusUpdate "success" none none 1 sampleRow))
    ∧ (applyStatusUpdate "failed" none none 2
        (applyStatusUpdate "success" none none 1 sampleRow)).status = "failed"
    ∧ (∀ x, (applyStatusUpdate "success" none none 1 sampleRow).completed_at
          = some x →
        (applyStatusUpdate "failed" none none 2
          (applyStatusUpdate "success" none none 1 sampleRow)).completed_at
          = some x) :=
  c1_status_last_writer_wins
    (update_task_status sampleDB "t1" "success" none none 1)
    "t1" "failed" none none 2
    (applyStatusUpdate "success" none none 1 sampleRow) rfl

/-- C2: the postrun signal handler writes status `"success"` to the
task's row for every run, with the (wrapped) return value as result; it
has no branch writing any other status. -/
theorem c2_postrun_always_success (db : TaskDB) (tid : String)
    (retval : RetVal) (now : Nat) (t : TaskMetadata)
    (h : get_task db tid none = some t) :
    ∃ t2, get_task (task_postrun_handler db tid retval now) tid none = some t2
      ∧ t2.status = "success" ∧ t2.result = some (wrapRetval retval) :=
  ⟨applyStatusUpdate "success" (some (wrapRetval retval)) none now t,
    get_task_update db tid "success" (some (wrapRetval retval)) none now t h,
    rfl, rfl⟩

/-- C2 witness: the postrun hook run on the sample table with a
non-dict return value marks `"t1"` success. -/
theorem c2_postrun_always_success_witness :
    ∃ t2, get_task (task_postrun_handler sampleDB "t1" (RetVal.other "7") 3)
        "t1" none = some t2
      ∧ t2.status = "success"
      ∧ t2.result = some (wrapRetval (RetVal.other "7")) :=
  c2_postrun_always_success sampleDB "t1" (RetVal.other "7") 3 sampleRow rfl

/-- C9: `update_task_status` never overwrites an already-set `started_at`
or `completed_at`; it sets `started_at` (to the call's time) only on a
`"running"` write finding it null, `completed_at` only on a terminal
write finding it null, and never touches `created_at`. -/
theorem c9_timestamps_write_once (db : TaskDB) (tid s : String)
    (r : Option (List (String × String))) (e : Option String) (now : Nat)
    (t : TaskMetadata) (h : get_task db tid none = some t) :
    ∃ t2, get_task (update_task_status db tid s r e now) tid none = some t2
      ∧ t2.created_at = t.created_at
      ∧ (∀ x, t.started_at = some x → t2.started_at = some x)
      ∧ (∀ x, t.completed_at = some x → t2.completed_at = some x)
      ∧ (t2.started_at ≠ t.started_at →
          s = "running" ∧ t.started_at = none ∧ t2.started_at = some now)
      ∧ (t2.completed_at ≠ t.completed_at →
          (s = "success" ∨ s = "failed") ∧ t.completed_at = none
            ∧ t2.completed_at = some now) := by
  refine ⟨applyStatusUpdate s r e now t, get_task_update db tid s r e now t h,
    rfl, ?_, ?_, ?_, ?_⟩
  · intro x hx
    rw [applyStatusUpdate_started_at, hx]
    simp
  · intro x hx
    rw [applyStatusUpdate_completed_at, hx]
    simp
  · intro hne
    rw [applyStatusUpdate_started_at] at hne ⊢
    by_cases hc : (s == "running" && t.started_at == none) = true
    · have hc2 : s = "running" ∧ t.started_at = none := by simpa using hc
      rw [if_pos hc]
      exact ⟨hc2.1, hc2.2, rfl⟩
    · rw [if_neg hc] at hne
      exact absurd rfl hne
  · intro hne
    rw [applyStatusUpdate_completed_at] at hne ⊢
    by_cases hc : ((s == "success" || s == "failed")
        && t.completed_at == none) = true
    · have hc2 : (s = "success" ∨ s = "failed") ∧ t.completed_at = none := by
        simpa using hc
      rw [if_pos hc]
      exact ⟨hc2.1, hc2.2, rfl⟩
    · rw [if_neg hc] at hne
      exact absurd rfl hne

/-- C9 witness: a `"running"` write on the freshly created sample row. -/
theorem c9_timestamps_write_once_witness :
    ∃ t2, get_task (update_task_status sampleDB "t1" "running" none none 4)
        "t1" none = some t2
      ∧ t2.created_at = sampleRow.created_at
      ∧ (∀ x, sampleRow.started_at = some x → t2.started_at = some x)
      ∧ (∀ x, sampleRow.completed_at = some x → t2.completed_at = some x)
      ∧ (t2.started_at ≠ sampleRow.started_at →
          "running" = "running" ∧ sampleRow.started_at = none
            ∧ t2.started_at = some 4)
      ∧ (t2.completed_at ≠ sampleRow.completed_at →
          ("running" = "success" ∨ "running" = "failed")
            ∧ sampleRow.completed_at = none ∧ t2.completed_at = some 4) :=
  c9_timestamps_write_once sampleDB "t1" "running" none none 4 sampleRow rfl

/-- C3: a successful streaming summarize run publishes exactly one
`chunk` event per adapter fragment, in order, on `stream:{task_id}`,
then one `complete` event whose data is the concatenation of the
fragments, and persists that concatenation as the note's summary. -/
theorem c3_stream_chunks_concat (tid : String) (chunks : List String) :
    (task_stream_summarize_note tid chunks).events
      = chunks.map (chunkEvent tid)
          ++ [completeEvent tid (String.join chunks)]
    ∧ (task_stream_summarize_note tid chunks).ai_summary
        = String.join chunks
    ∧ (task_stream_summarize_note tid chunks).has_ai_summary = true := by
  have hp := publishChunks_spec tid chunks ""
  refine ⟨?_, ?_, rfl⟩ <;>
    simp [task_stream_summarize_note, hp, string_join_eq_foldl]

/-- C4: counterexample.  The claim says retries use exponential backoff
(5s, 25s, 125s), that exhaustion publishes an `error` StreamEvent, and
that the TaskRecord ends at status `"failed"`.  With an always-failing
handler, the three scheduled countdowns are all 60 seconds (the handler
passes `countdown=60` on every retry), no StreamEvent of any kind is
published on the failure path, and the run's final row status is
`"success"` — the postrun hook, which fires after every run, rewrites
the failure hook's `"failed"`. -/
theorem c4_fixed_countdown_no_error_event :
    (task_enhance_note_run sampleDB "t1"
        (fun _ => Except.error "Ollama service unavailable")
        1 2).outcome.countdowns
      = [60, 60, 60]
    ∧ (task_enhance_note_run sampleDB "t1"
        (fun _ => Except.error "Ollama service unavailable")
        1 2).outcome.countdowns
      ≠ [5, 25, 125]
    ∧ (task_enhance_note_run sampleDB "t1"
        (fun _ => Except.error "Ollama service unavailable")
        1 2).published
      = []
    ∧ (get_task (task_enhance_note_run sampleDB "t1"
        (fun _ => Except.error "Ollama service unavailable")
        1 2).db "t1" none).map TaskMetadata.status
      = some "success" := by
  refine ⟨rfl, by decide, rfl, rfl⟩

/-- C4 (amended): on handler exception `task_enhance_note` is retried up
to 3 times, each retry scheduled after a fixed 60-second countdown (not
exponential backoff); after the fourth attempt fails no further retry is
attempted.  The failure hook writes status `"failed"` with `error` equal
to the last exception's message, but the postrun hook — which fires
after every run — then rewrites the row's status to `"success"` with the
stringified exception as result; `error` keeps the last exception's
message.  No StreamEvent is published on this path. -/
theorem c4_retry_fixed_countdown_then_failed (db : TaskDB) (tid : String)
    (errs : Nat → String) (nowFail nowPost : Nat) (t : TaskMetadata)
    (h : get_task db tid none = some t) :
    (task_enhance_note_run db tid (fun k => Except.error (errs k))
        nowFail nowPost).outcome.countdowns = [60, 60, 60]
    ∧ (task_enhance_note_run db tid (fun k => Except.error (errs k))
        nowFail nowPost).outcome.attempts = 4
    ∧ (task_enhance_note_run db tid (fun k => Except.error (errs k))
        nowFail nowPost).outcome.final = Except.error (errs 3)
    ∧ (task_enhance_note_run db tid (fun k => Except.error (errs k))
        nowFail nowPost).published = []
    ∧ (∃ t1, get_task (task_failure_handler db tid (errs 3) nowFail) tid
          none = some t1
        ∧ t1.status = "failed" ∧ t1.error = some (errs 3))
    ∧ ∃ t2, get_task (task_enhance_note_run db tid
          (fun k => Except.error (errs k)) nowFail nowPost).db tid none
          = some t2
        ∧ t2.status = "success" ∧ t2.error = some (errs 3)
        ∧ t2.result = some (wrapRetval (RetVal.other (errs 3))) := by
  have h1 : get_task (task_failure_handler db tid (errs 3) nowFail) tid none
      = some (applyStatusUpdate "failed" none (some (errs 3)) nowFail t) :=
    get_task_update db tid "failed" none (some (errs 3)) nowFail t h
  refine ⟨rfl, rfl, rfl, rfl,
    ⟨applyStatusUpdate "failed" none (some (errs 3)) nowFail t, h1, rfl, rfl⟩,
    applyStatusUpdate "success" (some (wrapRetval (RetVal.other (errs 3))))
      none nowPost (applyStatusUpdate "failed" none (some (errs 3)) nowFail t),
    ?_, rfl, rfl, rfl⟩
  exact get_task_update (task_failure_handler db tid (errs 3) nowFail) tid
    "success" (some (wrapRetval (RetVal.other (errs 3)))) none nowPost
    (applyStatusUpdate "failed" none (some (errs 3)) nowFail t) h1

/-- C4 witness: the always-failing handler on the sample table runs
through three 60s retries; the failure hook leaves `"t1"` failed with
the last error message, and the postrun hook then flips it to success
while `error` retains that message. -/
theorem c4_retry_fixed_countdown_then_failed_witness :
    (task_enhance_note_run sampleDB "t1" (fun k => Except.error
        ((fun _ => "Ollama service unavailable") k)) 9 10).outcome.countdowns
      = [60, 60, 60]
    ∧ (task_enhance_note_run sampleDB "t1" (fun k => Except.error
        ((fun _ => "Ollama service unavailable") k)) 9 10).outcome.attempts
      = 4
    ∧ (task_enhance_note_run sampleDB "t1" (fun k => Except.error
        ((fun _ => "Ollama service unavailable") k)) 9 10).outcome.final
      = Except.error ((fun _ => "Ollama service unavailable") 3)
    ∧ (task_enhance_note_run sampleDB "t1" (fun k => Except.error
        ((fun _ => "Ollama service unavailable") k)) 9 10).published = []
    ∧ (∃ t1, get_task (task_failure_handler sampleDB "t1"
          ((fun _ => "Ollama service unavailable") 3) 9) "t1" none = some t1
        ∧ t1.status = "failed"
        ∧ t1.error = some ((fun _ => "Ollama service unavailable") 3))
    ∧ ∃ t2, get_task (task_enhance_note_run sampleDB "t1"
          (fun k => Except.error ((fun _ => "Ollama service unavailable") k))
          9 10).db "t1" none = some t2
        ∧ t2.status = "success"
        ∧ t2.error = some ((fun _ => "Ollama service unavailable") 3)
        ∧ t2.result = some (wrapRetval
            (RetVal.other ((fun _ => "Ollama service unavailable") 3))) :=
  c4_retry_fixed_countdown_then_failed sampleDB "t1"
    (fun _ => "Ollama service unavailable") 9 10 sampleRow rfl

/-- C5: counterexample.  The claim says the `/ws/stream/{task_id}`
gateway sends the current TaskRecord snapshot immediately after
subscribing.  Concretely, with the task already finished (snapshot
available, no further events published), that gateway sends nothing at
all, while the `/ws/task_status/{task_id}` gateway does send the
snapshot. -/
theorem c5_ws_stream_sends_no_snapshot :
    ws_ollama_stream_messages sampleInfo [] = []
    ∧ ws_task_status_messages sampleInfo []
        = [WsMessage.snapshot sampleInfo] :=
  ⟨rfl, rfl⟩

/-- C5 (amended): of the two long-lived gateways, only
`/ws/task_status/{task_id}` sends the current Celery snapshot first
(immediately after subscribing, before any relayed event);
`/ollama/ws/stream/{task_id}` sends no snapshot — every message it sends
is a relay of an event published while it was subscribed, so a
subscriber that connects after the task finished receives nothing until
a new event arrives. -/
theorem c5_snapshot_only_on_task_status_gateway (info : CeleryInfo)
    (events : List StreamEvent) :
    (ws_task_status_messages info events).head?
      = some (WsMessage.snapshot info)
    ∧ ∀ m ∈ ws_ollama_stream_messages info events,
        ∃ ev, m = WsMessage.event ev ∧ ev ∈ events := by
  refine ⟨rfl, ?_⟩
  intro m hm
  simp only [ws_ollama_stream_messages, List.mem_map] at hm
  obtain ⟨ev, hev, rfl⟩ := hm
  exact ⟨ev, rfl, ws_relay_subset events ev hev⟩

/-- C5 witness: on a one-event channel the task-status gateway leads
with the snapshot and the stream gateway only relays that event. -/
theorem c5_snapshot_only_on_task_status_gateway_witness :
    (ws_task_status_messages sampleInfo [completeEvent "t1" "x"]).head?
      = some (WsMessage.snapshot sampleInfo)
    ∧ ∀ m ∈ ws_ollama_stream_messages sampleInfo [completeEvent "t1" "x"],
        ∃ ev, m = WsMessage.event ev ∧ ev ∈ [completeEvent "t1" "x"] :=
  c5_snapshot_only_on_task_status_gateway sampleInfo [completeEvent "t1" "x"]

/-- C6: counterexample.  The claim says every gateway emits an
error-shaped payload when the adapter fails mid-generation.  Concretely,
after one fragment and an adapter failure, the SSE gateways emit no
error frame at all — the failure arrives as an ordinary chunk and the
stream ends with the normal terminal frame. -/
theorem c6_no_error_payload_on_adapter_failure :
    ((enhance_note_streaming_generate "t1" 5 ["Hel"] (some "timeout")).events.all
        (fun ev => match ev with
                   | SSEEvent.errorEvt _ => false
                   | _ => true)) = true
    ∧ (enhance_note_streaming_generate "t1" 5 ["Hel"]
        (some "timeout")).events.getLast?
      = some (SSEEvent.done "Hel[Error: timeout]")
    ∧ ((stream_blog_generation_stream 9 "T" ["Hel"] (some "timeout")).all
        (fun ev => match ev with
                   | BlogSSE.errorEvt _ => false
                   | _ => true)) = true := by
  refine ⟨rfl, rfl, rfl⟩

/-- C8: dispatch-time ownership validation: when the referenced note does
not exist or is not owned by the requester, `POST /ollama/enhance`
returns 404, creates no metadata row and enqueues nothing — validation
runs strictly before task creation and enqueueing. -/
theorem c8_dispatch_validates_before_enqueue (notes : List Note)
    (db : TaskDB) (note_id user_id : Nat) (tid : String) (now : Nat)
    (h : (notes.filter
        (fun n => n.id == note_id && n.user_id == user_id)).head? = none) :
    enhance_note notes db note_id user_id tid now
      = { response := DispatchResponse.notFound "Note not found", db := db,
          queued := [] } := by
  unfold enhance_note
  rw [h]

/-- C8 witness: a note owned by user 99 dispatched by user 7 yields 404
with the table unchanged and nothing enqueued. -/
theorem c8_dispatch_validates_before_enqueue_witness :
    enhance_note [{ id := 5, user_id := 99, title := "x", content := "y" }]
        sampleDB 5 7 "t9" 4
      = { response := DispatchResponse.notFound "Note not found",
          db := sampleDB, queued := [] } :=
  c8_dispatch_validates_before_enqueue
    [{ id := 5, user_id := 99, title := "x", content := "y" }]
    sampleDB 5 7 "t9" 4 rfl

/-- C10: counterexample.  The claim says the TaskRecord survives
cancellation and a later GET by the owner still returns it.  Concretely,
cancelling `"t1"` deletes its row, and the subsequent GET returns 404. -/
theorem c10_cancel_deletes_record :
    (cancel_task sampleDB "t1" 7 false).response = CancelResponse.cancelled
    ∧ task_row_query (cancel_task sampleDB "t1" 7 false).db "t1" 7 = none
    ∧ (get_task_status_view (cancel_task sampleDB "t1" 7 false).db "t1" 7
        { state := "", result := none, error := none } 3).1
      = GetTaskResponse.notFound := by
  refine ⟨rfl, rfl, rfl⟩

theorem getLast_cons_append_single {α : Type} (a b : α) (l : List α) :
    (a :: l ++ [b]).getLast? = some b :=
  List.getLast?_concat (a :: l)

/-- Shape of the SSE frames of `enhance_note_streaming.generate`. -/
theorem enhance_events_shape (tid : String) (nid : Nat)
    (frags : List String) (failure : Option String) :
    (enhance_note_streaming_generate tid nid frags failure).events
      = SSEEvent.started tid
          :: (stream_content frags failure).map SSEEvent.chunk
          ++ [SSEEvent.done (String.join (stream_content frags failure))]
    ∧ (enhance_note_streaming_generate tid nid frags failure).saved
      = some (nid, String.join (stream_content frags failure)) := by
  have hs := sseChunkLoop_spec (stream_content frags failure) ""
  constructor <;>
    simp [enhance_note_streaming_generate, hs, string_join_eq_foldl]

/-- No frame of the enhance SSE stream is error-shaped. -/
theorem enhance_events_no_error (tid : String) (nid : Nat)
    (frags : List String) (failure : Option String) :
    ∀ ev ∈ (enhance_note_streaming_generate tid nid frags failure).events,
      ∀ m, ev ≠ SSEEvent.errorEvt m := by
  rw [(enhance_events_shape tid nid frags failure).1]
  intro ev hev m
  rcases List.mem_cons.mp hev with h | hh
  · subst h; simp
  · rcases List.mem_append.mp hh with h2 | h2
    · obtain ⟨c, _, rfl⟩ := List.mem_map.mp h2
      simp
    · rw [List.mem_singleton] at h2
      subst h2; simp

/-- No frame of the blog SSE stream is error-shaped. -/
theorem blog_events_no_error (blog_id : Nat) (title : String)
    (frags : List String) (failure : Option String) :
    ∀ ev ∈ stream_blog_generation_stream blog_id title frags failure,
      ∀ m, ev ≠ BlogSSE.errorEvt m := by
  intro ev hev m
  unfold stream_blog_generation_stream at hev
  rcases List.mem_cons.mp hev with h | hh
  · subst h; simp
  · rcases List.mem_append.mp hh with h2 | h2
    · obtain ⟨c, _, rfl⟩ := List.mem_map.mp h2
      simp
    · rw [List.mem_singleton] at h2
      subst h2; simp

/-- Shape of the summarize worker's published events (used by the
gateway analyses). -/
theorem summarize_events_shape (tid : String) (chunks : List String) :
    (task_stream_summarize_note tid chunks).events
      = chunks.map (chunkEvent tid)
          ++ [completeEvent tid (String.join chunks)] := by
  have hp := publishChunks_spec tid chunks ""
  simp [task_stream_summarize_note, hp, string_join_eq_foldl]

/-- C6 (amended): when the adapter fails mid-generation, the failure is
surfaced in-band as a final `[Error: …]` fragment, so every gateway
finishes its normal path and closes: the SSE gateways emit the marker as
an ordinary chunk and end with their terminal done/complete frame — not
an error-shaped frame — and the websocket relay forwards the worker's
whole event sequence, closing after the terminal `complete` event.  No
connection is left open, and no error-shaped payload is emitted for an
adapter failure. -/
theorem c6_gateways_close_after_adapter_failure (tid : String)
    (nid blog_id : Nat) (title : String) (info : CeleryInfo)
    (frags : List String) (msg : String) :
    ((enhance_note_streaming_generate tid nid frags (some msg)).events.getLast?
        = some (SSEEvent.done
            (String.join (frags ++ ["[Error: " ++ msg ++ "]"]))))
    ∧ (∀ ev ∈ (enhance_note_streaming_generate tid nid frags
          (some msg)).events, ∀ m, ev ≠ SSEEvent.errorEvt m)
    ∧ ((stream_blog_generation_stream blog_id title frags
          (some msg)).getLast? = some (BlogSSE.complete blog_id))
    ∧ (∀ ev ∈ stream_blog_generation_stream blog_id title frags (some msg),
        ∀ m, ev ≠ BlogSSE.errorEvt m)
    ∧ (ws_ollama_stream_messages info
        (task_stream_summarize_note tid
          (stream_content frags (some msg))).events
      = (task_stream_summarize_note tid
          (stream_content frags (some msg))).events.map WsMessage.event) := by
  refine ⟨?_, enhance_events_no_error tid nid frags (some msg), ?_,
    blog_events_no_error blog_id title frags (some msg), ?_⟩
  · rw [(enhance_events_shape tid nid frags (some msg)).1]
    show (SSEEvent.started tid :: _ ++ [_]).getLast? = _
    rw [getLast_cons_append_single]
    rfl
  · exact getLast_cons_append_single (BlogSSE.start blog_id title)
      (BlogSSE.complete blog_id)
      ((stream_blog_content frags (some msg)).map BlogSSE.chunk)
  · rw [summarize_events_shape]
    unfold ws_ollama_stream_messages
    rw [ws_relay_chunks_complete]

/-- C6 witness: concrete mid-stream failure after one fragment. -/
theorem c6_gateways_close_after_adapter_failure_witness :
    ((enhance_note_streaming_generate "t1" 5 ["Hel"]
        (some "timeout")).events.getLast?
      = some (SSEEvent.done
          (String.join (["Hel"] ++ ["[Error: " ++ "timeout" ++ "]"]))))
    ∧ (∀ ev ∈ (enhance_note_streaming_generate "t1" 5 ["Hel"]
          (some "timeout")).events, ∀ m, ev ≠ SSEEvent.errorEvt m)
    ∧ ((stream_blog_generation_stream 9 "T" ["Hel"]
          (some "timeout")).getLast? = some (BlogSSE.complete 9))
    ∧ (∀ ev ∈ stream_blog_generation_stream 9 "T" ["Hel"] (some "timeout"),
        ∀ m, ev ≠ BlogSSE.errorEvt m)
    ∧ (ws_ollama_stream_messages sampleInfo
        (task_stream_summarize_note "t1"
          (stream_content ["Hel"] (some "timeout"))).events
      = (task_stream_summarize_note "t1"
          (stream_content ["Hel"] (some "timeout"))).events.map
            WsMessage.event) :=
  c6_gateways_close_after_adapter_failure "t1" 5 9 "T" sampleInfo
    ["Hel"] "timeout"

/-- C7: the adapter never raises to its consumer: a failure after the
fragments `frags` is surfaced as one final in-band fragment
`[Error: msg]`, the SSE consumer accumulates it like any chunk, the
done frame carries the accumulated text including the marker, and that
same text is handed to the persistence task. -/
theorem c7_adapter_errors_in_band (frags : List String)
    (msg tid : String) (nid : Nat) :
    stream_generate frags (some msg) = frags ++ ["[Error: " ++ msg ++ "]"]
    ∧ (enhance_note_streaming_generate tid nid frags (some msg)).saved
        = some (nid, String.join frags ++ ("[Error: " ++ msg ++ "]"))
    ∧ (enhance_note_streaming_generate tid nid frags (some msg)).events.getLast?
        = some (SSEEvent.done
            (String.join frags ++ ("[Error: " ++ msg ++ "]"))) := by
  have hj : String.join (stream_content frags (some msg))
      = String.join frags ++ ("[Error: " ++ msg ++ "]") := by
    show String.join (frags ++ ["[Error: " ++ msg ++ "]"]) = _
    rw [string_join_append_single]
  refine ⟨rfl, ?_, ?_⟩
  · rw [(enhance_events_shape tid nid frags (some msg)).2, hj]
  · rw [(enhance_events_shape tid nid frags (some msg)).1, hj]
    show (SSEEvent.started tid :: _ ++ [_]).getLast? = _
    rw [getLast_cons_append_single]

/-- Erasing the first match removes all matches when at most one row
matches. -/
theorem filter_eraseP_nil {α : Type} (p : α → Bool) (l : List α)
    (h : (l.filter p).length ≤ 1) : (l.eraseP p).filter p = [] := by
  induction l with
  | nil => rfl
  | cons a l ih =>
      by_cases ha : p a
      · rw [List.eraseP_cons_of_pos ha]
        rw [List.filter_cons_of_pos ha] at h
        simp only [List.length_cons] at h
        have h0 : (List.filter p l).length = 0 := by omega
        exact List.length_eq_zero.mp h0
      · rw [List.eraseP_cons_of_neg ha, List.filter_cons_of_neg ha]
        rw [List.filter_cons_of_neg ha] at h
        exact ih h

/-- C10 (amended): cancellation by the owner revokes the Celery task
best-effort — a raising revoke is swallowed and changes nothing — and
then deletes the TaskMetadata row, so a subsequent
`GET /tasks/{task_id}` by the owner returns NotFound rather than the
record. -/
theorem c10_cancel_best_effort_then_delete (db : TaskDB) (tid : String)
    (uid : Nat) (b b2 : Bool) (info : CeleryInfo) (now : Nat)
    (t : TaskMetadata) (hmem : task_row_query db tid uid = some t)
    (huniq : (db.filter
        (fun x => x.task_id == tid && x.user_id == uid)).length ≤ 1) :
    cancel_task db tid uid b = cancel_task db tid uid b2
    ∧ (cancel_task db tid uid b).response = CancelResponse.cancelled
    ∧ (cancel_task db tid uid b).revoke_attempted = true
    ∧ task_row_query (cancel_task db tid uid b).db tid uid = none
    ∧ (get_task_status_view (cancel_task db tid uid b).db tid uid info
        now).1 = GetTaskResponse.notFound := by
  have hdel : task_row_query
      (db.eraseP (fun x => x.task_id == tid && x.user_id == uid)) tid uid
      = none := by
    unfold task_row_query
    rw [filter_eraseP_nil _ db huniq]
    rfl
  have hc : cancel_task db tid uid b
      = { response := CancelResponse.cancelled
          db := db.eraseP (fun x => x.task_id == tid && x.user_id == uid)
          revoke_attempted := true } := by
    unfold cancel_task
    rw [hmem]
  refine ⟨rfl, ?_, ?_, ?_, ?_⟩
  · rw [hc]
  · rw [hc]
  · rw [hc]
    exact hdel
  · rw [hc]
    unfold get_task_status_view
    rw [hdel]

/-- C10 witness: cancelling the sample task deletes it and the follow-up
GET is a 404. -/
theorem c10_cancel_best_effort_then_delete_witness :
    cancel_task sampleDB "t1" 7 true = cancel_task sampleDB "t1" 7 false
    ∧ (cancel_task sampleDB "t1" 7 true).response = CancelResponse.cancelled
    ∧ (cancel_task sampleDB "t1" 7 true).revoke_attempted = true
    ∧ task_row_query (cancel_task sampleDB "t1" 7 true).db "t1" 7 = none
    ∧ (get_task_status_view (cancel_task sampleDB "t1" 7 true).db "t1" 7
        sampleInfo 3).1 = GetTaskResponse.notFound :=
  c10_cancel_best_effort_then_delete sampleDB "t1" 7 true false sampleInfo 3
    sampleRow rfl (by decide)

end Companion
